import Mathlib

/-!
# Verification of the repository/job/page data layer

Shallow embedding of the entity models and the DynamoDB-backed repository
manager of the deepwiki-open-multirepo source, together with theorems about
the behaviour of its operations.

Modelling conventions, used throughout:
* Python `datetime` values are modelled as `Nat` epoch seconds; `isoformat` /
  `fromisoformat` round-trip through the dedicated `AttrVal.time` constructor.
* Python dict payloads (`metadata`, `input_params`, ...) are modelled as
  association lists `List (String × String)`; their contents are carried
  around opaquely.
* A pydantic model class with validators is embedded as a structure plus a
  smart constructor returning `Except String _` that performs exactly the
  validator checks of the source.
-/

deriving instance DecidableEq for Except

namespace DeepWiki

/-! ## Generic list/string helpers (Python string operations) -/

/-- Python `pat in s` on character lists: `pat` occurs as a contiguous
    infix of `l` (the empty pattern always occurs). -/
def containsL (pat : List Char) : List Char → Bool
  | [] => pat.isEmpty
  | c :: cs => pat.isPrefixOf (c :: cs) || containsL pat cs

/-- Python `s.endswith(pat)` on character lists. -/
def endsWithL (pat l : List Char) : Bool :=
  pat.reverse.isPrefixOf l.reverse

/-- Strip a literal leading pattern, returning the remainder. -/
def dropHead? (pat l : List Char) : Option (List Char) :=
  if pat.isPrefixOf l then some (l.drop pat.length) else none

/-- Python `s.lower()` restricted to ASCII (all inputs of interest are ASCII
    paths and URLs). -/
def pyLower (s : String) : List Char :=
  s.data.map Char.toLower

/-- Whitespace test used by Python `str.strip()` (ASCII whitespace). -/
def isWS (c : Char) : Bool :=
  c = ' ' || c = '\t' || c = '\n' || c = '\r'

/-- Python `s.strip()` on character lists: drop whitespace from both ends. -/
def pyStripL (l : List Char) : List Char :=
  ((l.dropWhile isWS).reverse.dropWhile isWS).reverse

/-- Python `s.strip()` on strings. -/
def pyStrip (s : String) : String :=
  String.mk (pyStripL s.data)

/-! ## Job entity model — `src/api/モデル/ジョブ.py` -/

/-- Enum `ジョブ種別` (job kind). The four members of the source enum. -/
inductive «ジョブ種別» where
  | PARSE_FULL
  | PARSE_INCREMENTAL
  | WEBHOOK_PROCESS
  | CLEANUP
deriving DecidableEq

/-- `.value` of each `ジョブ種別` member. -/
def «ジョブ種別».value : «ジョブ種別» → String
  | .PARSE_FULL => "PARSE_FULL"
  | .PARSE_INCREMENTAL => "PARSE_INCREMENTAL"
  | .WEBHOOK_PROCESS => "WEBHOOK_PROCESS"
  | .CLEANUP => "CLEANUP"

/-- Enum coercion `ジョブ種別(value)`: the member with the given value,
    `none` when the string is not a member value (Python raises `ValueError`). -/
def «ジョブ種別».ofString (v : String) : Option «ジョブ種別» :=
  if v = "PARSE_FULL" then some .PARSE_FULL
  else if v = "PARSE_INCREMENTAL" then some .PARSE_INCREMENTAL
  else if v = "WEBHOOK_PROCESS" then some .WEBHOOK_PROCESS
  else if v = "CLEANUP" then some .CLEANUP
  else none

/-- Enum `ジョブステータス`. -/
inductive «ジョブステータス» where
  | PENDING
  | RUNNING
  | COMPLETED
  | FAILED
  | CANCELLED
deriving DecidableEq

def «ジョブステータス».value : «ジョブステータス» → String
  | .PENDING => "PENDING"
  | .RUNNING => "RUNNING"
  | .COMPLETED => "COMPLETED"
  | .FAILED => "FAILED"
  | .CANCELLED => "CANCELLED"

def «ジョブステータス».ofString (v : String) : Option «ジョブステータス» :=
  if v = "PENDING" then some .PENDING
  else if v = "RUNNING" then some .RUNNING
  else if v = "COMPLETED" then some .COMPLETED
  else if v = "FAILED" then some .FAILED
  else if v = "CANCELLED" then some .CANCELLED
  else none

/-- Enum `ジョブ優先度`. -/
inductive «ジョブ優先度» where
  | HIGH
  | NORMAL
  | LOW
deriving DecidableEq

def «ジョブ優先度».value : «ジョブ優先度» → String
  | .HIGH => "HIGH"
  | .NORMAL => "NORMAL"
  | .LOW => "LOW"

def «ジョブ優先度».ofString (v : String) : Option «ジョブ優先度» :=
  if v = "HIGH" then some .HIGH
  else if v = "NORMAL" then some .NORMAL
  else if v = "LOW" then some .LOW
  else none

/-- Opaque dict payload (`Dict[str, Any]` carried through unchanged). -/
abbrev Params := List (String × String)

/-- The pydantic model `ジョブ`. `TTL` is `Int` (not `Option`): the
    `always=True` validator of the source guarantees it is set on every
    constructed instance. -/
structure «ジョブ» where
  «ジョブID» : String
  «リポジトリID» : String
  «種別» : «ジョブ種別»
  «ステータス» : «ジョブステータス»
  «優先度» : «ジョブ優先度»
  «開始日時» : Option Nat
  «完了日時» : Option Nat
  «作成日時» : Nat
  «更新日時» : Nat
  TTL : Int
  «実行者» : Option String
  «エラーメッセージ» : Option String
  «進捗率» : Int
  «処理済みファイル数» : Int
  «総ファイル数» : Option Int
  «入力パラメータ» : Option Params
  «出力結果» : Option Params
  «メタデータ» : Option Params
deriving DecidableEq

/-- Construction of a `ジョブ` instance: runs the two validators of the
    source model.  `進捗率妥当性を検証` rejects progress outside `[0,100]`;
    `TTL自動設定` fills an absent TTL with creation time plus 30 days
    (`int((作成日時 + timedelta(days=30)).timestamp())`, i.e.
    `作成日時 + 30*86400` epoch seconds). -/
def «ジョブを構築» (jobId repoId : String) («種別» : «ジョブ種別»)
    («ステータス» : «ジョブステータス») («優先度» : «ジョブ優先度»)
    («開始日時» «完了日時» : Option Nat) («作成日時» «更新日時» : Nat)
    (ttlArg : Option Int) («実行者» «エラーメッセージ» : Option String)
    («進捗率» «処理済みファイル数» : Int) («総ファイル数» : Option Int)
    («入力パラメータ» «出力結果» «メタデータ» : Option Params) :
    Except String «ジョブ» :=
  if «進捗率» < 0 ∨ «進捗率» > 100 then
    .error "進捗率は0から100の間で指定してください"
  else
    .ok
      { «ジョブID» := jobId
        «リポジトリID» := repoId
        «種別» := «種別»
        «ステータス» := «ステータス»
        «優先度» := «優先度»
        «開始日時» := «開始日時»
        «完了日時» := «完了日時»
        «作成日時» := «作成日時»
        «更新日時» := «更新日時»
        TTL := ttlArg.getD ((«作成日時» : Int) + 30 * 86400)
        «実行者» := «実行者»
        «エラーメッセージ» := «エラーメッセージ»
        «進捗率» := «進捗率»
        «処理済みファイル数» := «処理済みファイル数»
        «総ファイル数» := «総ファイル数»
        «入力パラメータ» := «入力パラメータ»
        «出力結果» := «出力結果»
        «メタデータ» := «メタデータ» }

/-- The request model `ジョブ更新リクエスト` (partial update). -/
structure «ジョブ更新リクエスト» where
  «ステータス» : Option «ジョブステータス»
  «進捗率» : Option Int
  «エラーメッセージ» : Option String
  «処理済みファイル数» : Option Int
  «総ファイル数» : Option Int
  «出力結果» : Option Params
deriving DecidableEq

/-- Construction of a `ジョブ更新リクエスト`: the source validator rejects a
    present progress value outside `[0,100]` (`v is not None and (v < 0 or v > 100)`). -/
def «ジョブ更新リクエストを構築» («ステータス» : Option «ジョブステータス»)
    («進捗率» : Option Int) («エラーメッセージ» : Option String)
    («処理済みファイル数» «総ファイル数» : Option Int)
    («出力結果» : Option Params) : Except String «ジョブ更新リクエスト» :=
  if «進捗率».isSome ∧ ((«進捗率».getD 0) < 0 ∨ («進捗率».getD 0) > 100) then
    .error "進捗率は0から100の間で指定してください"
  else
    .ok
      { «ステータス» := «ステータス»
        «進捗率» := «進捗率»
        «エラーメッセージ» := «エラーメッセージ»
        «処理済みファイル数» := «処理済みファイル数»
        «総ファイル数» := «総ファイル数»
        «出力結果» := «出力結果» }

/-- The DynamoDB item dict produced for a job.  A field of type `Option _`
    records key presence (`if self.X:` guards of the source); the doubly
    optional payload fields record a present key whose value may itself be
    Python `None`. -/
structure JobItem where
  job_id : String
  repo_id : String
  type : String
  status : String
  priority : Option String
  created_at : Nat
  updated_at : Nat
  ttl : Option Int
  progress : Option Int
  processed_files : Option Int
  input_params : Option (Option Params)
  output_result : Option (Option Params)
  metadata : Option (Option Params)
  started_at : Option Nat
  completed_at : Option Nat
  executor : Option String
  error_message : Option String
  total_files : Option Int
deriving DecidableEq

/-- `ジョブ.DynamoDB項目に変換`: the unconditional keys are always written;
    `started_at`/`completed_at`/`executor`/`error_message`/`total_files` are
    written only when the Python value is truthy (a datetime is always truthy,
    an empty string and the integer 0 are falsy). -/
def «ジョブ».«DynamoDB項目に変換» (j : «ジョブ») : JobItem :=
  { job_id := j.«ジョブID»
    repo_id := j.«リポジトリID»
    type := j.«種別».value
    status := j.«ステータス».value
    priority := some j.«優先度».value
    created_at := j.«作成日時»
    updated_at := j.«更新日時»
    ttl := some j.TTL
    progress := some j.«進捗率»
    processed_files := some j.«処理済みファイル数»
    input_params := some j.«入力パラメータ»
    output_result := some j.«出力結果»
    metadata := some j.«メタデータ»
    started_at := j.«開始日時»
    completed_at := j.«完了日時»
    executor := match j.«実行者» with
      | some v => if v = "" then none else some v
      | none => none
    error_message := match j.«エラーメッセージ» with
      | some v => if v = "" then none else some v
      | none => none
    total_files := match j.«総ファイル数» with
      | some n => if n = 0 then none else some n
      | none => none }

/-- `ジョブ.DynamoDB項目から作成`: reads the item back (enum coercions can
    fail with `ValueError`; `.get` defaults follow the source) and re-runs
    the model validators via `ジョブを構築`. -/
def «ジョブ».«DynamoDB項目から作成» (it : JobItem) : Except String «ジョブ» := do
  let t ← match «ジョブ種別».ofString it.type with
    | some t => Except.ok t
    | none => Except.error "invalid ジョブ種別 value"
  let st ← match «ジョブステータス».ofString it.status with
    | some st => Except.ok st
    | none => Except.error "invalid ジョブステータス value"
  let pr ← match «ジョブ優先度».ofString (it.priority.getD "NORMAL") with
    | some pr => Except.ok pr
    | none => Except.error "invalid ジョブ優先度 value"
  «ジョブを構築» it.job_id it.repo_id t st pr it.started_at it.completed_at
    it.created_at it.updated_at it.ttl it.executor it.error_message
    (it.progress.getD 0) (it.processed_files.getD 0) it.total_files
    (it.input_params.getD (some [])) (it.output_result.getD (some []))
    (it.metadata.getD (some []))

/-! ## Page entity model — `src/api/モデル/ページ.py` -/

/-- Enum `ページ種別` (page kind). -/
inductive «ページ種別» where
  | README
  | CODE
  | DIRECTORY
  | API
  | GUIDE
deriving DecidableEq

/-- The source-code extension tuple used by `ソースパスから種別を推定`. -/
def codeExtensions : List String :=
  [".py", ".js", ".ts", ".java", ".cpp", ".c", ".go", ".rs"]

/-- Python `s.split(sep)[-1]` for `sep = '/'`: the part of the string after
    the last slash (the whole string when no slash occurs). -/
def lastSegmentAfterSlash (l : List Char) : List Char :=
  (l.reverse.takeWhile (fun c => c != '/')).reverse

/-- `ソースパスから種別を推定`: infer a page kind from a source path.  The
    chain of conditions is in source order; the directory test is the literal
    `'/' in パス and not パス.split('/')[-1]`. -/
def «ソースパスから種別を推定» (p : String) : «ページ種別» :=
  if containsL "readme".data (pyLower p) then .README
  else if codeExtensions.any (fun e => endsWithL e.data (pyLower p)) then .CODE
  else if containsL "api".data (pyLower p) || containsL "swagger".data (pyLower p)
      || containsL "openapi".data (pyLower p) then .API
  else if containsL "doc".data (pyLower p) || containsL "guide".data (pyLower p)
      || containsL "tutorial".data (pyLower p) then .GUIDE
  else if (pyLower p).contains '/' && (lastSegmentAfterSlash (pyLower p)).isEmpty then
    .DIRECTORY
  else .CODE

/-- The type-inference rule as worded by the specification: same rule chain,
    with the directory case phrased as "the path ends in a path separator". -/
def inferTypeSpec (p : String) : «ページ種別» :=
  if containsL "readme".data (pyLower p) then .README
  else if codeExtensions.any (fun e => endsWithL e.data (pyLower p)) then .CODE
  else if containsL "api".data (pyLower p) || containsL "swagger".data (pyLower p)
      || containsL "openapi".data (pyLower p) then .API
  else if containsL "doc".data (pyLower p) || containsL "guide".data (pyLower p)
      || containsL "tutorial".data (pyLower p) then .GUIDE
  else if (pyLower p).getLast? = some '/' then .DIRECTORY
  else .CODE

/-! ## Repository entity model — `src/api/モデル/リポジトリ.py` -/

/-- Enum `リポジトリプロバイダー`. -/
inductive «リポジトリプロバイダー» where
  | github
  | codecommit
deriving DecidableEq

def «リポジトリプロバイダー».value : «リポジトリプロバイダー» → String
  | .github => "github"
  | .codecommit => "codecommit"

def «リポジトリプロバイダー».ofString (v : String) : Option «リポジトリプロバイダー» :=
  if v = "github" then some .github
  else if v = "codecommit" then some .codecommit
  else none

/-- Enum `リポジトリステータス`. -/
inductive «リポジトリステータス» where
  | READY
  | PARSING
  | FAILED
deriving DecidableEq

def «リポジトリステータス».value : «リポジトリステータス» → String
  | .READY => "READY"
  | .PARSING => "PARSING"
  | .FAILED => "FAILED"

def «リポジトリステータス».ofString (v : String) : Option «リポジトリステータス» :=
  if v = "READY" then some .READY
  else if v = "PARSING" then some .PARSING
  else if v = "FAILED" then some .FAILED
  else none

/-- The pydantic model `リポジトリ`. -/
structure «リポジトリ» where
  «リポジトリID» : String
  «プロバイダー» : «リポジトリプロバイダー»
  «リモートURL» : String
  «表示名» : String
  «デフォルトブランチ» : String
  «ステータス» : «リポジトリステータス»
  «最終スキャンSHA» : Option String
  «最終スキャン日時» : Option Nat
  «作成日時» : Nat
  «更新日時» : Nat
  «削除フラグ» : Bool
  «メタデータ» : Params
deriving DecidableEq

/-- A maximal nonempty run of non-slash characters: the regex piece
    `[^/]+` used by the URL grammars. -/
def seg (l : List Char) : Bool :=
  !l.isEmpty && l.all (fun c => c != '/')

/-- Full match of `[^/]+/[^/]+` (regex pieces of the GitHub URL patterns):
    the remainder splits at its first slash into two nonempty slash-free
    runs.  Since `[^/]` cannot match a slash, the first-slash split is the
    only split the regex could use. -/
def twoSegs (l : List Char) : Bool :=
  match l.span (fun c => c != '/') with
  | (a, '/' :: rest) => !a.isEmpty && seg rest
  | _ => false

/-- Full match of `[^/]+/[^/]+\.git`. -/
def twoSegsGit (l : List Char) : Bool :=
  match l.span (fun c => c != '/') with
  | (a, '/' :: rest) =>
    !a.isEmpty && rest.all (fun c => c != '/') && endsWithL ".git".data rest
      && decide (rest.length > 4)
  | _ => false

/-- The three GitHub URL regexes of `URL妥当性を検証`, embedded structurally
    (`re.match` with a closing `$`; `$` is modelled as end-of-input — the
    Python `$` would additionally accept one trailing newline, a corner no
    claim depends on):
    `^https://github\.com/[^/]+/[^/]+\.git$`,
    `^https://github\.com/[^/]+/[^/]+$`,
    `^git@github\.com:[^/]+/[^/]+\.git$`. -/
def «GitHubURLか» (url : String) : Bool :=
  (match dropHead? "https://github.com/".data url.data with
   | some rest => twoSegsGit rest || twoSegs rest
   | none => false)
  || (match dropHead? "git@github.com:".data url.data with
      | some rest => twoSegsGit rest
      | none => false)

/-- The three CodeCommit URL regexes of `URL妥当性を検証`:
    `^codecommit://[^/]+$`, `^codecommit::[^:]+://[^/]+$`,
    `^https://git-codecommit\.[^.]+\.amazonaws\.com/v1/repos/[^/]+$`.
    As with `[^/]+`, the `[^:]+` and `[^.]+` runs must stop at the first
    occurrence of the excluded character, so first-occurrence splits are
    faithful. -/
def «CodeCommitURLか» (url : String) : Bool :=
  (match dropHead? "codecommit://".data url.data with
   | some rest => seg rest
   | none => false)
  || (match dropHead? "codecommit::".data url.data with
      | some rest =>
        match rest.span (fun c => c != ':') with
        | (a, ':' :: '/' :: '/' :: bb) => !a.isEmpty && seg bb
        | _ => false
      | none => false)
  || (match dropHead? "https://git-codecommit.".data url.data with
      | some rest =>
        match rest.span (fun c => c != '.') with
        | (a, '.' :: rest2) =>
          !a.isEmpty
            && (match dropHead? "amazonaws.com/v1/repos/".data rest2 with
                | some bb => seg bb
                | none => false)
        | _ => false
      | none => false)

/-- Validator `URL妥当性を検証` of the `リポジトリ` model: the URL must match
    one of the provider's URL patterns. -/
def «URL妥当性を検証» («プロバイダー» : «リポジトリプロバイダー») (v : String) :
    Except String String :=
  match «プロバイダー» with
  | .github => if «GitHubURLか» v then .ok v else .error "無効なGitHub URL形式です"
  | .codecommit =>
    if «CodeCommitURLか» v then .ok v else .error "無効なCodeCommit URL形式です"

/-- Validator `表示名妥当性を検証`: non-empty after stripping, at most 100
    characters, and the stripped name is stored. -/
def «表示名妥当性を検証» (v : String) : Except String String :=
  if v = "" ∨ (pyStrip v).length = 0 then .error "表示名は必須です"
  else if v.length > 100 then .error "表示名は100文字以内で入力してください"
  else .ok (pyStrip v)

/-- Construction of a `リポジトリ` instance, running the two validators of
    the source model. -/
def «リポジトリを構築» (id : String) («プロバイダー» : «リポジトリプロバイダー»)
    (url name branch : String) («ステータス» : «リポジトリステータス»)
    (sha : Option String) (scanAt : Option Nat) (created updated : Nat)
    (deleted : Bool) (metadata : Params) : Except String «リポジトリ» := do
  let url2 ← «URL妥当性を検証» «プロバイダー» url
  let name2 ← «表示名妥当性を検証» name
  .ok
    { «リポジトリID» := id
      «プロバイダー» := «プロバイダー»
      «リモートURL» := url2
      «表示名» := name2
      «デフォルトブランチ» := branch
      «ステータス» := «ステータス»
      «最終スキャンSHA» := sha
      «最終スキャン日時» := scanAt
      «作成日時» := created
      «更新日時» := updated
      «削除フラグ» := deleted
      «メタデータ» := metadata }

/-! ## DynamoDB store model — `src/api/リポジトリ/DynamoDB基底.py`

The repository table is a list of items; an item is an association list of
attribute names to attribute values.  `AttrVal.time` models an ISO-8601
timestamp string by the instant it denotes (`isoformat`/`fromisoformat`
round-trip through it). -/

inductive AttrVal where
  | s (v : String)
  | b (v : Bool)
  | time (v : Nat)
  | dict (v : Params)
deriving DecidableEq

abbrev Item := List (String × AttrVal)

abbrev Store := List Item

/-- Dict lookup `項目.get(k)`. -/
def itemGet (it : Item) (k : String) : Option AttrVal :=
  (it.find? (fun kv => kv.1 == k)).map (fun kv => kv.2)

/-- Dict assignment `項目[k] = v`: overwrite in place or append (CPython
    keeps the original insertion position of an existing key). -/
def itemSet : Item → String → AttrVal → Item
  | [], k, v => [(k, v)]
  | kv :: rest, k, v => if kv.1 = k then (k, v) :: rest else kv :: itemSet rest k v

/-- Apply a DynamoDB `SET a = :a, b = :b, ...` update expression built from
    a dict of field changes. -/
def applyUpdates (it : Item) (updates : List (String × AttrVal)) : Item :=
  updates.foldl (fun acc kv => itemSet acc kv.1 kv.2) it

/-- Python truthiness of an attribute value. -/
def pyTruthy : AttrVal → Bool
  | .s v => v != ""
  | .b v => v
  | .time _ => true
  | .dict v => !v.isEmpty

/-- The condition expressions occurring in the source (built from
    `attribute_exists`, `attribute_not_exists`, equality with a boolean
    value, AND, OR). -/
inductive CondExpr where
  | attrExistsE (a : String)
  | attrNotExistsE (a : String)
  | eqBool (a : String) (v : Bool)
  | andE (x y : CondExpr)
  | orE (x y : CondExpr)
deriving DecidableEq

/-- DynamoDB condition evaluation against the current item under the target
    key (no item: `attribute_not_exists` holds, `attribute_exists` and any
    comparison fail). -/
def evalCond (it : Option Item) : CondExpr → Bool
  | .attrExistsE a =>
    match it with
    | some i => (itemGet i a).isSome
    | none => false
  | .attrNotExistsE a =>
    match it with
    | some i => (itemGet i a).isNone
    | none => true
  | .eqBool a v =>
    match it with
    | some i => decide (itemGet i a = some (.b v))
    | none => false
  | .andE x y => evalCond it x && evalCond it y
  | .orE x y => evalCond it x || evalCond it y

/-- `"attribute_not_exists(repo_id)"` (conditional put of `リポジトリを作成`). -/
def condIdNotExists : CondExpr := .attrNotExistsE "repo_id"

/-- `"attribute_exists(repo_id)"` (physical delete). -/
def condIdExists : CondExpr := .attrExistsE "repo_id"

/-- `"attribute_exists(repo_id) AND (attribute_not_exists(deleted) OR deleted = :false)"`
    (update and logical delete). -/
def condExistsNotDeleted : CondExpr :=
  .andE (.attrExistsE "repo_id") (.orE (.attrNotExistsE "deleted") (.eqBool "deleted" false))

/-- DynamoDB-layer errors of `DynamoDB基底.py`. -/
inductive «DynamoDBエラー» where
  | «接続エラー»
  | «アイテム未発見エラー»
  | «条件チェックエラー»
  | «例外»
deriving DecidableEq

/-- The primary-key attribute of an item (the repository table is keyed by
    `repo_id`). -/
def itemKey (it : Item) : Option AttrVal :=
  itemGet it "repo_id"

/-- Replace the item whose key equals the new item's key, else append
    (DynamoDB `put_item` semantics). -/
def storePut : Store → Item → Store
  | [], item => [item]
  | it :: rest, item =>
    if itemKey it = itemKey item then item :: rest else it :: storePut rest item

/-- Replace the first item stored under key `k`. -/
def storeReplaceAt : Store → String → Item → Store
  | [], _, _ => []
  | it :: rest, k, item =>
    if itemKey it = some (.s k) then item :: rest else it :: storeReplaceAt rest k item

/-- Remove the first item stored under key `k`. -/
def storeEraseAt : Store → String → Store
  | [], _ => []
  | it :: rest, k =>
    if itemKey it = some (.s k) then rest else it :: storeEraseAt rest k

/-- `アイテムを取得`: point lookup by primary key (`None` when absent). -/
def «アイテムを取得» (s : Store) (k : String) : Option Item :=
  s.find? (fun it => decide (itemKey it = some (.s k)))

/-- `アイテムを保存`: `put_item`, optionally guarded by a condition expression
    evaluated against the current item under the same key; a failing
    condition raises `条件チェックエラー`. -/
def «アイテムを保存» (s : Store) (item : Item) (cond : Option CondExpr) :
    Except «DynamoDBエラー» Store :=
  match itemKey item with
  | none => .error .«例外»
  | some key =>
    let existing := s.find? (fun it => decide (itemKey it = some key))
    match cond with
    | some c =>
      if evalCond existing c then .ok (storePut s item) else .error .«条件チェックエラー»
    | none => .ok (storePut s item)

/-- `アイテムを更新`: `update_item` with `ReturnValues=ALL_NEW`.  The update
    expression is a list of `SET` assignments; a failing condition raises
    `条件チェックエラー`; updating a missing key (only reachable without an
    existence condition) creates the item. -/
def «アイテムを更新» (s : Store) (k : String) (updates : List (String × AttrVal))
    (cond : Option CondExpr) : Except «DynamoDBエラー» (Item × Store) :=
  let existing := «アイテムを取得» s k
  let proceed : Except «DynamoDBエラー» (Item × Store) :=
    match existing with
    | some it =>
      let it2 := applyUpdates it updates
      .ok (it2, storeReplaceAt s k it2)
    | none =>
      let it2 := applyUpdates [("repo_id", .s k)] updates
      .ok (it2, s ++ [it2])
  match cond with
  | some c =>
    if evalCond existing c then proceed else .error .«条件チェックエラー»
  | none => proceed

/-- `アイテムを削除`: `delete_item`, optionally conditional. -/
def «アイテムを削除» (s : Store) (k : String) (cond : Option CondExpr) :
    Except «DynamoDBエラー» Store :=
  let existing := «アイテムを取得» s k
  match cond with
  | some c =>
    if evalCond existing c then .ok (storeEraseAt s k) else .error .«条件チェックエラー»
  | none => .ok (storeEraseAt s k)

/-- `スキャン実行`: full retrieval with a post-hoc predicate filter and an
    optional truncation of the filtered results (the Conditional Store
    collaborator contract: "full-table retrieval with a post-hoc predicate
    filter"). -/
def «スキャン実行» (s : Store) (filter : Item → Bool) (lim : Option Nat) : List Item :=
  match lim with
  | some n => (s.filter filter).take n
  | none => s.filter filter

/-! ## Repository item conversion — `リポジトリ.DynamoDB項目に変換` / `から作成` -/

/-- `DynamoDB項目に変換`: the ten unconditional attributes in source order,
    then `last_scan_sha` only when truthy (a non-empty string) and
    `last_scan_at` only when present (a datetime is always truthy). -/
def «リポジトリ».«DynamoDB項目に変換» (r : «リポジトリ») : Item :=
  [("repo_id", .s r.«リポジトリID»), ("provider", .s r.«プロバイダー».value),
   ("remote_url", .s r.«リモートURL»), ("display_name", .s r.«表示名»),
   ("default_branch", .s r.«デフォルトブランチ»), ("status", .s r.«ステータス».value),
   ("created_at", .time r.«作成日時»), ("updated_at", .time r.«更新日時»),
   ("deleted", .b r.«削除フラグ»), ("metadata", .dict r.«メタデータ»)]
  ++ (match r.«最終スキャンSHA» with
      | some v => if v = "" then [] else [("last_scan_sha", .s v)]
      | none => [])
  ++ (match r.«最終スキャン日時» with
      | some t => [("last_scan_at", .time t)]
      | none => [])

/-- Required string attribute (`項目['k']`, with pydantic expecting a string). -/
def getStr (it : Item) (k : String) : Option String :=
  match itemGet it k with
  | some (.s v) => some v
  | some _ => none
  | none => none

/-- String attribute with a `.get` default. -/
def getStrD (it : Item) (k : String) (d : String) : Option String :=
  match itemGet it k with
  | some (.s v) => some v
  | some _ => none
  | none => some d

/-- Required timestamp attribute (`datetime.fromisoformat(項目['k'])`). -/
def getTimeA (it : Item) (k : String) : Option Nat :=
  match itemGet it k with
  | some (.time v) => some v
  | some _ => none
  | none => none

/-- `DynamoDB項目から作成`: read the attributes back (with the `.get`
    defaults of the source) and re-run the model validators via
    `リポジトリを構築`.  Any missing required attribute, non-member enum
    value, unparsable timestamp or failing validator is a raised exception,
    modelled as `none`. -/
def «リポジトリ».«DynamoDB項目から作成» (it : Item) : Option «リポジトリ» := do
  let id ← getStr it "repo_id"
  let pv ← getStr it "provider"
  let provider ← «リポジトリプロバイダー».ofString pv
  let url ← getStr it "remote_url"
  let name ← getStr it "display_name"
  let branch ← getStrD it "default_branch" "main"
  let status ← (match itemGet it "status" with
    | some (.s v) => «リポジトリステータス».ofString v
    | some _ => none
    | none => some .READY)
  let sha ← (match itemGet it "last_scan_sha" with
    | some (.s v) => some (some v)
    | some _ => none
    | none => some none)
  let scanAt ← (match itemGet it "last_scan_at" with
    | some x =>
      if pyTruthy x then
        match x with
        | .time v => some (some v)
        | _ => none
      else some none
    | none => some none)
  let created ← getTimeA it "created_at"
  let updated ← getTimeA it "updated_at"
  let deleted ← (match itemGet it "deleted" with
    | some (.b v) => some v
    | some _ => none
    | none => some false)
  let md ← (match itemGet it "metadata" with
    | some (.dict d) => some d
    | some _ => none
    | none => some [])
  («リポジトリを構築» id provider url name branch status sha scanAt created updated
    deleted md).toOption

/-! ## Repository entity manager — `src/api/リポジトリ/リポジトリリポジトリ.py`

The source file contains two complete textual definitions of every method of
the class (a duplicated block); in Python the later definition shadows the
earlier one.  Methods whose two definitions differ in behaviour are embedded
twice, with suffixes `第一定義` (the earlier, shadowed text) and `第二定義`
(the later text, the one in effect).  Non-deterministic inputs of an
operation — the generated id and `datetime.now()` — are passed as
parameters. -/

/-- The scan filter of `URLでリポジトリを検索`:
    `Attr('remote_url').eq(リモートURL) & Attr('deleted').ne(True)`.
    A DynamoDB comparison against a missing attribute is false, `<>`
    included (items written by this manager always carry `deleted`). -/
def urlFilter (url : String) (it : Item) : Bool :=
  decide (itemGet it "remote_url" = some (.s url))
    && (match itemGet it "deleted" with
        | some v => decide (v ≠ .b true)
        | none => false)

/-- `URLでリポジトリを検索` (both source definitions coincide): scan with the
    URL filter and `制限数=1`, convert the first hit.  A conversion failure
    propagates as `DynamoDB例外`. -/
def «URLでリポジトリを検索» (s : Store) («リモートURL» : String) :
    Except «DynamoDBエラー» (Option «リポジトリ») :=
  match «スキャン実行» s (urlFilter «リモートURL») (some 1) with
  | [] => .ok none
  | it :: _ =>
    match «リポジトリ».«DynamoDB項目から作成» it with
    | some r => .ok (some r)
    | none => .error .«例外»

/-- `リポジトリを作成` (the two source definitions coincide up to logging):
    duplicate-URL check first, then construct the model with status `READY`
    and both timestamps `now`, then a conditional put asserting the
    generated id does not exist.  A duplicate URL raises
    `条件チェックエラー` before any write; every other failure is re-raised
    as `DynamoDB例外`. -/
def «リポジトリを作成» (s : Store) («プロバイダー» : «リポジトリプロバイダー»)
    («リモートURL» «表示名» «デフォルトブランチ» : String) (newId : String)
    (now : Nat) : Except «DynamoDBエラー» («リポジトリ» × Store) :=
  match «URLでリポジトリを検索» s «リモートURL» with
  | .error «DynamoDBエラー».«条件チェックエラー» => .error .«条件チェックエラー»
  | .error _ => .error .«例外»
  | .ok (some _) => .error .«条件チェックエラー»
  | .ok none =>
    match «リポジトリを構築» newId «プロバイダー» «リモートURL» «表示名»
        «デフォルトブランチ» .READY none none now now false [] with
    | .error _ => .error .«例外»
    | .ok r =>
      match «アイテムを保存» s (r.«DynamoDB項目に変換») (some condIdNotExists) with
      | .ok s2 => .ok (r, s2)
      | .error «DynamoDBエラー».«条件チェックエラー» => .error .«条件チェックエラー»
      | .error _ => .error .«例外»

/-- `リポジトリを取得`, first (shadowed) definition: raises
    `アイテム未発見エラー` when the item is absent or its `deleted`
    attribute is truthy; otherwise converts it. -/
def «リポジトリを取得・第一定義» (s : Store) («リポジトリID» : String) :
    Except «DynamoDBエラー» «リポジトリ» :=
  match «アイテムを取得» s «リポジトリID» with
  | some it =>
    if pyTruthy ((itemGet it "deleted").getD (.b false)) then
      .error .«アイテム未発見エラー»
    else
      match «リポジトリ».«DynamoDB項目から作成» it with
      | some r => .ok r
      | none => .error .«例外»
  | none => .error .«アイテム未発見エラー»

/-- `リポジトリを取得`, second definition (the one in effect): returns
    `none` when the item is absent or its `deleted` attribute is truthy. -/
def «リポジトリを取得・第二定義» (s : Store) («リポジトリID» : String) :
    Except «DynamoDBエラー» (Option «リポジトリ») :=
  match «アイテムを取得» s «リポジトリID» with
  | some it =>
    if pyTruthy ((itemGet it "deleted").getD (.b false)) then
      .ok none
    else
      match «リポジトリ».«DynamoDB項目から作成» it with
      | some r => .ok (some r)
      | none => .error .«例外»
  | none => .ok none

/-- `リポジトリを更新`, first (shadowed) definition: stamps `updated_at`
    into the field-change dict, performs the conditional update, and
    translates a condition failure into `アイテム未発見エラー`. -/
def «リポジトリを更新・第一定義» (s : Store) («リポジトリID» : String)
    («更新データ» : List (String × AttrVal)) (now : Nat) :
    Except «DynamoDBエラー» («リポジトリ» × Store) :=
  let data := itemSet «更新データ» "updated_at" (.time now)
  match «アイテムを更新» s «リポジトリID» data (some condExistsNotDeleted) with
  | .ok (it2, s2) =>
    match «リポジトリ».«DynamoDB項目から作成» it2 with
    | some r => .ok (r, s2)
    | none => .error .«例外»
  | .error «DynamoDBエラー».«条件チェックエラー» => .error .«アイテム未発見エラー»
  | .error _ => .error .«例外»

/-- `リポジトリを更新`, second definition (the one in effect): identical
    update, but a condition failure is caught and turned into a `none`
    return, leaving the store untouched. -/
def «リポジトリを更新・第二定義» (s : Store) («リポジトリID» : String)
    («更新データ» : List (String × AttrVal)) (now : Nat) :
    Except «DynamoDBエラー» (Option «リポジトリ» × Store) :=
  let data := itemSet «更新データ» "updated_at" (.time now)
  match «アイテムを更新» s «リポジトリID» data (some condExistsNotDeleted) with
  | .ok (it2, s2) =>
    match «リポジトリ».«DynamoDB項目から作成» it2 with
    | some r => .ok (some r, s2)
    | none => .error .«例外»
  | .error «DynamoDBエラー».«条件チェックエラー» => .ok (none, s)
  | .error _ => .error .«例外»

/-- `リポジトリを削除`, second definition (the one in effect).  Physical:
    conditional delete requiring existence.  Logical: conditional update
    `SET deleted = :true, updated_at = :updated_at` requiring existence and
    not already deleted.  A condition failure is caught and returned as
    `false`. -/
def «リポジトリを削除・第二定義» (s : Store) («リポジトリID» : String)
    («物理削除» : Bool) (now : Nat) : Except «DynamoDBエラー» (Bool × Store) :=
  if «物理削除» then
    match «アイテムを削除» s «リポジトリID» (some condIdExists) with
    | .ok s2 => .ok (true, s2)
    | .error «DynamoDBエラー».«条件チェックエラー» => .ok (false, s)
    | .error _ => .error .«例外»
  else
    match «アイテムを更新» s «リポジトリID»
        [("deleted", .b true), ("updated_at", .time now)] (some condExistsNotDeleted) with
    | .ok (_, s2) => .ok (true, s2)
    | .error «DynamoDBエラー».«条件チェックエラー» => .ok (false, s)
    | .error _ => .error .«例外»

/-- The repository value constructed by a successful `リポジトリを作成` call
    (validated URL `url`, stripped display name `nm`, status READY, both
    timestamps `now`). -/
def createdRepo (id : String) (provider : «リポジトリプロバイダー»)
    (url nm branch : String) (now : Nat) : «リポジトリ» :=
  { «リポジトリID» := id
    «プロバイダー» := provider
    «リモートURL» := url
    «表示名» := nm
    «デフォルトブランチ» := branch
    «ステータス» := .READY
    «最終スキャンSHA» := none
    «最終スキャン日時» := none
    «作成日時» := now
    «更新日時» := now
    «削除フラグ» := false
    «メタデータ» := [] }

/-- Concrete sample repository (the registration scenario of the
    specification) used by the evaluation theorems. -/
def sampleRepo : «リポジトリ» :=
  createdRepo "repo-1" .github "https://github.com/acme/widgets" "Widgets" "main" 0

/-- A store holding exactly the sample repository. -/
def sampleStore : Store := [sampleRepo.«DynamoDB項目に変換»]

/-- The sample store after the logical delete of `repo-1` at time 7. -/
def sampleStoreDeleted : Store :=
  [applyUpdates (sampleRepo.«DynamoDB項目に変換»)
    [("deleted", .b true), ("updated_at", .time 7)]]

/-! ## Helper lemmas -/

/-- The source directory test (`'/' in s` and the part after the last slash
    is empty) is equivalent to "the string ends with a slash". -/
theorem dirCond (l : List Char) :
    (l.contains '/' && (lastSegmentAfterSlash l).isEmpty) = true ↔
      l.getLast? = some '/' := by
  rw [← List.head?_reverse]
  unfold lastSegmentAfterSlash
  rcases hr : l.reverse with _ | ⟨c, cs⟩
  · have hl : l = [] := List.reverse_eq_nil_iff.mp hr
    subst hl
    simp
  · by_cases hc : c = '/'
    · subst hc
      have hm : '/' ∈ l := by
        rw [← List.mem_reverse, hr]
        exact List.mem_cons_self _ _
      simp [hr, List.takeWhile, List.contains, hm]
    · have hb : (c != '/') = true := by simpa using hc
      simp [hr, List.takeWhile, hb, hc]

theorem jobKind_ofString_value (t : «ジョブ種別») :
    «ジョブ種別».ofString t.value = some t := by
  cases t <;> rfl

theorem jobStatus_ofString_value (t : «ジョブステータス») :
    «ジョブステータス».ofString t.value = some t := by
  cases t <;> rfl

theorem jobPriority_ofString_value (t : «ジョブ優先度») :
    «ジョブ優先度».ofString t.value = some t := by
  cases t <;> rfl

theorem dropWhile_eq_self_of_head (p : Char → Bool) (l : List Char)
    (h : ∀ c, l.head? = some c → p c = false) : l.dropWhile p = l := by
  cases l with
  | nil => rfl
  | cons c cs =>
    rw [List.dropWhile_cons, h c rfl]
    simp

theorem head?_dropWhile_false (p : Char → Bool) (l : List Char) :
    ∀ c, (l.dropWhile p).head? = some c → p c = false := by
  intro c hc
  have h := List.head?_dropWhile_not p l
  rw [hc] at h
  exact h

theorem getLast?_dropWhile_of_ne (p : Char → Bool) (X : List Char) (c : Char)
    (hc : (X.dropWhile p).getLast? = some c) : X.getLast? = some c := by
  obtain ⟨t, ht⟩ := List.dropWhile_suffix (l := X) p
  rw [← ht, List.getLast?_append, hc]
  rfl

theorem pyStripL_head (l : List Char) :
    ∀ c, (pyStripL l).head? = some c → isWS c = false := by
  intro c hc
  unfold pyStripL at hc
  rw [List.head?_reverse] at hc
  have h2 := getLast?_dropWhile_of_ne isWS ((l.dropWhile isWS).reverse) c hc
  rw [List.getLast?_reverse] at h2
  exact head?_dropWhile_false isWS l c h2

theorem pyStripL_getLast (l : List Char) :
    ∀ c, (pyStripL l).getLast? = some c → isWS c = false := by
  intro c hc
  unfold pyStripL at hc
  rw [List.getLast?_reverse] at hc
  exact head?_dropWhile_false isWS _ c hc

theorem pyStripL_eq_self (l : List Char)
    (h1 : ∀ c, l.head? = some c → isWS c = false)
    (h2 : ∀ c, l.getLast? = some c → isWS c = false) : pyStripL l = l := by
  unfold pyStripL
  rw [dropWhile_eq_self_of_head isWS l h1]
  rw [dropWhile_eq_self_of_head isWS l.reverse
    (fun c hc => h2 c (by rwa [List.head?_reverse] at hc))]
  exact List.reverse_reverse l

theorem pyStripL_idem (l : List Char) : pyStripL (pyStripL l) = pyStripL l :=
  pyStripL_eq_self _ (pyStripL_head l) (pyStripL_getLast l)

theorem pyStripL_length_le (l : List Char) : (pyStripL l).length ≤ l.length := by
  have hA : (l.dropWhile isWS).length ≤ l.length := (List.dropWhile_sublist _).length_le
  have hB : ((l.dropWhile isWS).reverse.dropWhile isWS).length
      ≤ (l.dropWhile isWS).reverse.length := (List.dropWhile_sublist _).length_le
  simp only [pyStripL, List.length_reverse] at *
  omega

theorem pyStrip_idem (s : String) : pyStrip (pyStrip s) = pyStrip s := by
  show String.mk (pyStripL (pyStripL s.data)) = String.mk (pyStripL s.data)
  rw [pyStripL_idem]

theorem pyStrip_length_le (s : String) : (pyStrip s).length ≤ s.length :=
  pyStripL_length_le s.data

theorem pyStrip_length (s : String) : (pyStrip s).length = (pyStripL s.data).length :=
  rfl

/-- A display name produced by the validator passes the validator again,
    unchanged (stripping is idempotent and never lengthens). -/
theorem name_validator_fix (v nm : String)
    (h : «表示名妥当性を検証» v = .ok nm) : «表示名妥当性を検証» nm = .ok nm := by
  have hA : ¬(v = "" ∨ (pyStrip v).length = 0) := by
    intro hc
    unfold «表示名妥当性を検証» at h
    rw [if_pos hc] at h
    exact Except.noConfusion h
  have hB : ¬(v.length > 100) := by
    intro hc
    unfold «表示名妥当性を検証» at h
    rw [if_neg hA, if_pos hc] at h
    exact Except.noConfusion h
  have hv : nm = pyStrip v := by
    unfold «表示名妥当性を検証» at h
    rw [if_neg hA, if_neg hB] at h
    exact (Except.ok.inj h).symm
  subst hv
  push_neg at hA
  have hl : (pyStrip v).length ≤ 100 :=
    le_trans (pyStrip_length_le v) (Nat.not_lt.mp hB)
  have hc1 : ¬(pyStrip v = "" ∨ (pyStrip (pyStrip v)).length = 0) := by
    rw [pyStrip_idem]
    push_neg
    refine ⟨?_, hA.2⟩
    intro he
    exact hA.2 (by rw [he]; rfl)
  have hc2 : ¬((pyStrip v).length > 100) := Nat.not_lt.mpr hl
  unfold «表示名妥当性を検証»
  rw [if_neg hc1, if_neg hc2, pyStrip_idem]

theorem provider_ofString_value (p : «リポジトリプロバイダー») :
    «リポジトリプロバイダー».ofString p.value = some p := by
  cases p <;> rfl

theorem repoStatus_ofString_value (t : «リポジトリステータス») :
    «リポジトリステータス».ofString t.value = some t := by
  cases t <;> rfl

/-- DynamoDB round trip of a repository whose URL and (already stripped)
    display name pass their validators and whose optional scan fields are
    absent: stored then re-read, the model is unchanged. -/
theorem repo_roundtrip (r : «リポジトリ»)
    (hu : «URL妥当性を検証» r.«プロバイダー» r.«リモートURL» = .ok r.«リモートURL»)
    (hn : «表示名妥当性を検証» r.«表示名» = .ok r.«表示名»)
    (hsha : r.«最終スキャンSHA» = none) (hat : r.«最終スキャン日時» = none) :
    «リポジトリ».«DynamoDB項目から作成» (r.«DynamoDB項目に変換») = some r := by
  obtain ⟨id, provider, url, name, branch, status, sha, scanAt, created, updated,
    deleted, md⟩ := r
  simp only at hu hn hsha hat
  subst hsha
  subst hat
  cases provider <;> cases status <;>
    simp [«リポジトリ».«DynamoDB項目から作成», «リポジトリ».«DynamoDB項目に変換»,
      getStr, getStrD, getTimeA, itemGet, «リポジトリを構築», hu, hn,
      Except.toOption, «リポジトリプロバイダー».ofString, «リポジトリステータス».ofString,
      «リポジトリプロバイダー».value, «リポジトリステータス».value,
      bind, Except.bind, Option.bind]

/-- Putting an item whose key is fresh for the store appends it. -/
theorem storePut_of_fresh (s : Store) (item : Item) (k : String)
    (hfresh : «アイテムを取得» s k = none) (hk : itemKey item = some (.s k)) :
    storePut s item = s ++ [item] := by
  unfold «アイテムを取得» at hfresh
  rw [List.find?_eq_none] at hfresh
  induction s with
  | nil => rfl
  | cons it rest ih =>
    have hne : ¬(itemKey it = itemKey item) := by
      intro he
      have := hfresh it (List.mem_cons_self _ _)
      rw [he, hk] at this
      simp at this
    rw [storePut, if_neg hne]
    rw [ih (fun x hx => hfresh x (List.mem_cons_of_mem _ hx))]
    rfl

/-! ## Claim theorems: job model -/

/-- C4: constructing a `ジョブ` with progress `p` and constructing a
`ジョブ更新リクエスト` with progress `p` raise a validation error exactly when
`p < 0 ∨ p > 100`; any `p ∈ [0,100]` is accepted and stored unchanged.  Both
validators are pure: no store state occurs in either signature, so rejection
happens before any store interaction. -/
theorem C4_progress_validation :
    ∀ (p : Int) (jobId repoId : String) (t : «ジョブ種別») (st : «ジョブステータス»)
      (pr : «ジョブ優先度») (sa ca : Option Nat) (cr up : Nat) (ttl : Option Int)
      (ex em : Option String) (pf : Int) (tf : Option Int) (ip orr md : Option Params)
      (st2 : Option «ジョブステータス») (em2 : Option String) (pf2 tf2 : Option Int)
      (orr2 : Option Params),
      ((∃ e, «ジョブを構築» jobId repoId t st pr sa ca cr up ttl ex em p pf tf ip orr md
          = .error e) ↔ (p < 0 ∨ p > 100))
      ∧ ((∃ e, «ジョブ更新リクエストを構築» st2 (some p) em2 pf2 tf2 orr2 = .error e)
          ↔ (p < 0 ∨ p > 100))
      ∧ ((∃ j, «ジョブを構築» jobId repoId t st pr sa ca cr up ttl ex em p pf tf ip orr md
          = .ok j ∧ j.«進捗率» = p) ↔ ¬(p < 0 ∨ p > 100))
      ∧ ((∃ r, «ジョブ更新リクエストを構築» st2 (some p) em2 pf2 tf2 orr2
          = .ok r ∧ r.«進捗率» = some p) ↔ ¬(p < 0 ∨ p > 100)) := by
  intro p jobId repoId t st pr sa ca cr up ttl ex em pf tf ip orr md st2 em2 pf2 tf2 orr2
  by_cases h : p < 0 ∨ p > 100 <;>
    simp [«ジョブを構築», «ジョブ更新リクエストを構築», h]

/-- C6: a `ジョブ` constructed without an explicit TTL gets
`作成日時 + 30 days` (in epoch seconds); an explicit TTL is kept unchanged. -/
theorem C6_ttl_default :
    ∀ (jobId repoId : String) (t : «ジョブ種別») (st : «ジョブステータス»)
      (pr : «ジョブ優先度») (sa ca : Option Nat) (cr up : Nat) (ttlArg : Option Int)
      (ex em : Option String) (p pf : Int) (tf : Option Int) (ip orr md : Option Params)
      (j : «ジョブ»),
      «ジョブを構築» jobId repoId t st pr sa ca cr up ttlArg ex em p pf tf ip orr md
        = .ok j →
      j.TTL = (match ttlArg with
        | none => (cr : Int) + 30 * 86400
        | some v => v) := by
  intro jobId repoId t st pr sa ca cr up ttlArg ex em p pf tf ip orr md j h
  unfold «ジョブを構築» at h
  split at h
  · exact absurd h (by simp)
  · rw [Except.ok.injEq] at h
    subst h
    cases ttlArg <;> rfl

/-- Witness for C6 at a concrete input: creation time 1000 and no explicit
TTL yield TTL `1000 + 30*86400`. -/
theorem C6_ttl_default_witness :
    ∃ j, «ジョブを構築» "job-1" "repo-1" .PARSE_FULL .PENDING .NORMAL none none
        1000 1000 none none none 0 0 none (some []) (some []) (some [])
      = .ok j ∧ j.TTL = (1000 : Int) + 30 * 86400 := by
  refine ⟨_, rfl, ?_⟩
  exact
    C6_ttl_default "job-1" "repo-1" .PARSE_FULL .PENDING .NORMAL none none
      1000 1000 none none none 0 0 none (some []) (some []) (some []) _ rfl

/-- C7 counterexample: the claim names `FULL_PARSE` as an accepted job type,
but the source enum member value is `PARSE_FULL`; the coercion rejects
`FULL_PARSE`. -/
theorem C7_counterexample :
    «ジョブ種別».ofString "FULL_PARSE" = none ∧
    «ジョブ種別».ofString "INCREMENTAL_PARSE" = none := ⟨rfl, rfl⟩

/-- C7 (amended): the set of job type values accepted (and stored via
`.value`) is exactly PARSE_FULL, PARSE_INCREMENTAL, WEBHOOK_PROCESS,
CLEANUP. -/
theorem C7_job_type_values :
    (∀ v : String, («ジョブ種別».ofString v).isSome ↔
        (v = "PARSE_FULL" ∨ v = "PARSE_INCREMENTAL" ∨ v = "WEBHOOK_PROCESS"
          ∨ v = "CLEANUP"))
    ∧ (∀ t : «ジョブ種別», «ジョブ種別».ofString t.value = some t) := by
  constructor
  · intro v
    unfold «ジョブ種別».ofString
    split_ifs with h1 h2 h3 h4 <;> simp_all
  · exact jobKind_ofString_value

/-- Explicit evaluation of the job DynamoDB round trip on a job whose
progress passes validation: the optional string fields and the total-file
count are normalised through Python truthiness, everything else is kept. -/
theorem job_roundtrip_eval (j : «ジョブ») (hv : ¬(j.«進捗率» < 0 ∨ j.«進捗率» > 100)) :
    «ジョブ».«DynamoDB項目から作成» (j.«DynamoDB項目に変換») = .ok
      { j with
        «実行者» := match j.«実行者» with
          | some v => if v = "" then none else some v
          | none => none
        «エラーメッセージ» := match j.«エラーメッセージ» with
          | some v => if v = "" then none else some v
          | none => none
        «総ファイル数» := match j.«総ファイル数» with
          | some n => if n = 0 then none else some n
          | none => none } := by
  simp only [«ジョブ».«DynamoDB項目から作成», «ジョブ».«DynamoDB項目に変換»,
    Option.getD_some]
  rw [jobKind_ofString_value, jobStatus_ofString_value, jobPriority_ofString_value]
  simp only [«ジョブを構築», hv, if_false, Option.getD_some, bind, Except.bind]

/-- C8: the page-type inference of the source coincides, on every path, with
the rule chain as the specification words it (README by "readme" substring,
then CODE by extension, then API, then GUIDE, then DIRECTORY when the path
ends in a separator, else CODE; all case-insensitive and in this order). -/
theorem C8_infer_type :
    ∀ p : String, «ソースパスから種別を推定» p = inferTypeSpec p := by
  intro p
  have h := dirCond (pyLower p)
  unfold «ソースパスから種別を推定» inferTypeSpec
  by_cases h1 : containsL "readme".data (pyLower p)
  · simp [h1]
  by_cases h2 : codeExtensions.any (fun e => endsWithL e.data (pyLower p))
  · simp [h1, h2]
  by_cases h3 : (containsL "api".data (pyLower p) || containsL "swagger".data (pyLower p)
      || containsL "openapi".data (pyLower p))
  · simp [h1, h2, h3]
  by_cases h4 : (containsL "doc".data (pyLower p) || containsL "guide".data (pyLower p)
      || containsL "tutorial".data (pyLower p))
  · simp [h1, h2, h3, h4]
  by_cases h5 : (pyLower p).getLast? = some '/'
  · simp [h1, h2, h3, h4, h5]
    simpa using h.mpr h5
  · have h5b : ¬(((pyLower p).contains '/'
        && (lastSegmentAfterSlash (pyLower p)).isEmpty) = true) :=
      fun hb => h5 (h.mp hb)
    simp [h1, h2, h3, h4, h5]
    simpa using h5b

/-- C10 (amended): the DynamoDB round trip of a job with valid progress
preserves id, repository id, type, status, priority, all four timestamps,
TTL, progress and processed-file count; a total-file count of `some 0` is
mapped to `none` (the serializer omits the attribute for a falsy count), so
the round trip is the identity only when the total-file count is not
`some 0` (negative counts are truthy in Python and survive unchanged, which
is what forces the amendment from "None or positive" to "not zero"). -/
theorem C10_roundtrip :
    ∀ j : «ジョブ», 0 ≤ j.«進捗率» → j.«進捗率» ≤ 100 →
      ∃ j2, «ジョブ».«DynamoDB項目から作成» (j.«DynamoDB項目に変換») = .ok j2
        ∧ j2.«ジョブID» = j.«ジョブID» ∧ j2.«リポジトリID» = j.«リポジトリID»
        ∧ j2.«種別» = j.«種別» ∧ j2.«ステータス» = j.«ステータス»
        ∧ j2.«優先度» = j.«優先度» ∧ j2.«開始日時» = j.«開始日時»
        ∧ j2.«完了日時» = j.«完了日時» ∧ j2.«作成日時» = j.«作成日時»
        ∧ j2.«更新日時» = j.«更新日時» ∧ j2.TTL = j.TTL
        ∧ j2.«進捗率» = j.«進捗率» ∧ j2.«処理済みファイル数» = j.«処理済みファイル数»
        ∧ j2.«総ファイル数» = (match j.«総ファイル数» with
            | some n => if n = 0 then none else some n
            | none => none)
        ∧ (j.«総ファイル数» = some 0 →
            «ジョブ».«DynamoDB項目から作成» (j.«DynamoDB項目に変換») ≠ .ok j) := by
  intro j h0 h100
  have hv : ¬(j.«進捗率» < 0 ∨ j.«進捗率» > 100) := by omega
  refine ⟨_, job_roundtrip_eval j hv, rfl, rfl, rfl, rfl, rfl, rfl, rfl, rfl, rfl,
    rfl, rfl, rfl, rfl, ?_⟩
  intro hz hcontra
  rw [job_roundtrip_eval j hv] at hcontra
  have hfields := congrArg «ジョブ».«総ファイル数» (Except.ok.inj hcontra)
  simp only [hz] at hfields
  simp at hfields

/-- Witness for C10 at a concrete job with progress 45 and a positive
total-file count: the round trip succeeds and preserves the job id. -/
theorem C10_roundtrip_witness :
    ∃ j2, «ジョブ».«DynamoDB項目から作成»
        («ジョブ».«DynamoDB項目に変換»
          { «ジョブID» := "job-2", «リポジトリID» := "repo-2", «種別» := .CLEANUP,
            «ステータス» := .RUNNING, «優先度» := .HIGH, «開始日時» := some 10,
            «完了日時» := none, «作成日時» := 5, «更新日時» := 6, TTL := 99,
            «実行者» := none, «エラーメッセージ» := none, «進捗率» := 45,
            «処理済みファイル数» := 3, «総ファイル数» := some 7,
            «入力パラメータ» := some [], «出力結果» := some [], «メタデータ» := some [] })
      = .ok j2 ∧ j2.«ジョブID» = "job-2" := by
  obtain ⟨j2, h1, h2, -⟩ := C10_roundtrip
    { «ジョブID» := "job-2", «リポジトリID» := "repo-2", «種別» := .CLEANUP,
      «ステータス» := .RUNNING, «優先度» := .HIGH, «開始日時» := some 10,
      «完了日時» := none, «作成日時» := 5, «更新日時» := 6, TTL := 99,
      «実行者» := none, «エラーメッセージ» := none, «進捗率» := 45,
      «処理済みファイル数» := 3, «総ファイル数» := some 7,
      «入力パラメータ» := some [], «出力結果» := some [], «メタデータ» := some [] }
    (by norm_num) (by norm_num)
  exact ⟨j2, h1, h2⟩

/-- C10 counterexample: a job whose total-file count is `-1` (neither `none`
nor positive) round-trips to itself, refuting "the round trip is the identity
only for jobs whose total-file count is None or positive". -/
theorem C10_counterexample :
    («ジョブ».«DynamoDB項目から作成»
        («ジョブ».«DynamoDB項目に変換»
          { «ジョブID» := "job-3", «リポジトリID» := "repo-3", «種別» := .PARSE_FULL,
            «ステータス» := .PENDING, «優先度» := .NORMAL, «開始日時» := none,
            «完了日時» := none, «作成日時» := 0, «更新日時» := 0, TTL := 1,
            «実行者» := none, «エラーメッセージ» := none, «進捗率» := 0,
            «処理済みファイル数» := 0, «総ファイル数» := some (-1),
            «入力パラメータ» := some [], «出力結果» := some [], «メタデータ» := some [] })
      = .ok
          { «ジョブID» := "job-3", «リポジトリID» := "repo-3", «種別» := .PARSE_FULL,
            «ステータス» := .PENDING, «優先度» := .NORMAL, «開始日時» := none,
            «完了日時» := none, «作成日時» := 0, «更新日時» := 0, TTL := 1,
            «実行者» := none, «エラーメッセージ» := none, «進捗率» := 0,
            «処理済みファイル数» := 0, «総ファイル数» := some (-1),
            «入力パラメータ» := some [], «出力結果» := some [], «メタデータ» := some [] })
    ∧ (some (-1) : Option Int) ≠ none ∧ ¬(0 < (-1 : Int)) := by
  refine ⟨rfl, by decide, by decide⟩

/-! ## Claim theorems: repository manager -/

/-- C2: evaluation of the two textual definitions of `リポジトリを取得` at the
claim's failing inputs.  The second definition — the one in effect — returns
`ok none` on an absent id and on a soft-deleted record (also right after a
successful logical delete), while the claim (and the shadowed first
definition, whose NotFound error the HTTP router's 404 handler catches)
expects the `アイテム未発見エラー` failure; a subsequent physical delete
still succeeds and removes the record. -/
theorem C2_get_eval :
    («リポジトリを取得・第二定義» sampleStore "repo-1" = .ok (some sampleRepo))
    ∧ («リポジトリを取得・第二定義» ([] : Store) "repo-x" = .ok none)
    ∧ («リポジトリを取得・第一定義» ([] : Store) "repo-x"
        = .error .«アイテム未発見エラー»)
    ∧ («リポジトリを削除・第二定義» sampleStore "repo-1" false 7
        = .ok (true, sampleStoreDeleted))
    ∧ («リポジトリを取得・第二定義» sampleStoreDeleted "repo-1" = .ok none)
    ∧ («リポジトリを取得・第一定義» sampleStoreDeleted "repo-1"
        = .error .«アイテム未発見エラー»)
    ∧ («リポジトリを削除・第二定義» sampleStoreDeleted "repo-1" true 9
        = .ok (true, [])) :=
  ⟨by decide, by decide, by decide, by decide, by decide, by decide, by decide⟩

/-- C3: evaluation of the two textual definitions of `リポジトリを更新`.  On a
non-existent id and on a soft-deleted record the definition in effect returns
`ok (none, unchanged store)` where the claim (and the shadowed first
definition) expects the `アイテム未発見エラー` failure; on an existing
non-deleted record it applies exactly the given changes plus the fresh
`updated_at` stamp and returns the updated repository. -/
theorem C3_update_eval :
    («リポジトリを更新・第二定義» ([] : Store) "repo-x" [] 7 = .ok (none, []))
    ∧ («リポジトリを更新・第一定義» ([] : Store) "repo-x" [] 7
        = .error .«アイテム未発見エラー»)
    ∧ («リポジトリを更新・第二定義» sampleStoreDeleted "repo-1"
        [("status", .s "FAILED")] 9 = .ok (none, sampleStoreDeleted))
    ∧ («リポジトリを更新・第二定義» sampleStore "repo-1"
        [("display_name", .s "New")] 7
        = .ok (some { sampleRepo with «表示名» := "New", «更新日時» := 7 },
            [applyUpdates (sampleRepo.«DynamoDB項目に変換»)
              [("display_name", .s "New"), ("updated_at", .time 7)]])) :=
  ⟨by decide, by decide, by decide, by decide⟩

/-- C5: the delete operation in effect returns `false` without raising when
the target is absent (physical and logical) and when a logical delete hits an
already soft-deleted record, and returns `true` when the target exists and
the deletion is applied — but the update operation in effect equally swallows
the store's condition-check error (the underlying conditional update raises
`条件チェックエラー`, the wrapper catches it and returns `ok (none, store)`),
refuting "no other operation swallows an error silently". -/
theorem C5_swallow_eval :
    («アイテムを更新» ([] : Store) "repo-x" [("updated_at", .time 7)]
        (some condExistsNotDeleted) = .error .«条件チェックエラー»)
    ∧ («リポジトリを更新・第二定義» ([] : Store) "repo-x" [] 7 = .ok (none, []))
    ∧ («リポジトリを削除・第二定義» ([] : Store) "repo-x" true 7 = .ok (false, []))
    ∧ («リポジトリを削除・第二定義» ([] : Store) "repo-x" false 7 = .ok (false, []))
    ∧ («リポジトリを削除・第二定義» sampleStoreDeleted "repo-1" false 9
        = .ok (false, sampleStoreDeleted))
    ∧ («リポジトリを削除・第二定義» sampleStore "repo-1" false 7
        = .ok (true, sampleStoreDeleted))
    ∧ («リポジトリを削除・第二定義» sampleStore "repo-1" true 7 = .ok (true, []))
    :=
  ⟨by decide, by decide, by decide, by decide, by decide, by decide, by decide⟩

/-- C9 counterexample: the two textual definitions of the get operation are
not extensionally equal — on the empty store the first raises
`アイテム未発見エラー` while the second returns `ok none`. -/
theorem C9_counterexample :
    ¬((«リポジトリを取得・第一定義» ([] : Store) "repo-x").map some
        = «リポジトリを取得・第二定義» ([] : Store) "repo-x") := by
  decide

/-- C9 (amended): on every store and id the two definitions of the get
operation either agree (first's result injected by `some` equals the
second's, which covers existing non-deleted records and the error paths of
conversion) or they differ exactly as error-signalling: the first fails with
`アイテム未発見エラー` precisely where the second returns `ok none` (absent
or soft-deleted records). -/
theorem C9_get_pair :
    ∀ (s : Store) (id : String),
      ((«リポジトリを取得・第一定義» s id).map some = «リポジトリを取得・第二定義» s id)
      ∨ («リポジトリを取得・第一定義» s id = .error .«アイテム未発見エラー»
          ∧ «リポジトリを取得・第二定義» s id = .ok none) := by
  intro s id
  unfold «リポジトリを取得・第一定義» «リポジトリを取得・第二定義»
  cases h : «アイテムを取得» s id with
  | none => exact Or.inr ⟨rfl, rfl⟩
  | some it =>
    by_cases hd : pyTruthy ((itemGet it "deleted").getD (.b false))
    · right
      simp [hd]
    · left
      cases hc : «リポジトリ».«DynamoDB項目から作成» it <;> simp [hd, hc, Except.map]

/-- C1 counterexample: a first create call with a valid provider/URL pair but
an empty display name fails with the generic `DynamoDB例外` (the display-name
validator rejects it after the duplicate check) instead of succeeding — the
claim's first-call part needs a display-name validity condition. -/
theorem C1_counterexample :
    («GitHubURLか» "https://github.com/acme/widgets" = true)
    ∧ «リポジトリを作成» ([] : Store) .github "https://github.com/acme/widgets" ""
        "main" "repo-1" 0 = .error .«例外» := by
  decide

/-- C1 (amended): if no non-deleted record with the URL exists, the URL
matches the provider's grammar, the display name passes validation and the
generated id is fresh, then the first create succeeds with status READY; and
after it commits, every second create with the same URL — any provider,
display name, branch, id and time — fails with `条件チェックエラー` (the
duplicate error), producing no store (the caller keeps the unchanged one). -/
theorem C1_create_unique :
    ∀ (s : Store) (provider : «リポジトリプロバイダー») (url name branch id nm : String)
      (now : Nat),
      «URLでリポジトリを検索» s url = .ok none →
      «URL妥当性を検証» provider url = .ok url →
      «表示名妥当性を検証» name = .ok nm →
      «アイテムを取得» s id = none →
      ∃ r s2, «リポジトリを作成» s provider url name branch id now = .ok (r, s2)
        ∧ r.«ステータス» = .READY
        ∧ ∀ (provider2 : «リポジトリプロバイダー») (name2 branch2 id2 : String)
            (now2 : Nat),
            «リポジトリを作成» s2 provider2 url name2 branch2 id2 now2
              = .error .«条件チェックエラー» := by
  intro s provider url name branch id nm now h1 h2 h3 h4
  have hmk : «リポジトリを構築» id provider url name branch .READY none none now now
      false [] = .ok (createdRepo id provider url nm branch now) := by
    unfold «リポジトリを構築» createdRepo
    rw [h2]
    simp only [bind, Except.bind]
    rw [h3]
  have hkey : itemKey ((createdRepo id provider url nm branch now).«DynamoDB項目に変換»)
      = some (.s id) := rfl
  have hput : «アイテムを保存» s
      ((createdRepo id provider url nm branch now).«DynamoDB項目に変換»)
      (some condIdNotExists)
      = .ok (s ++ [(createdRepo id provider url nm branch now).«DynamoDB項目に変換»]) := by
    unfold «アイテムを保存»
    rw [hkey]
    have hfind : s.find? (fun it => decide (itemKey it = some (.s id))) = none := h4
    simp only [hfind, condIdNotExists, evalCond]
    rw [storePut_of_fresh s _ id h4 hkey]
    simp
  have hcreate : «リポジトリを作成» s provider url name branch id now
      = .ok (createdRepo id provider url nm branch now,
          s ++ [(createdRepo id provider url nm branch now).«DynamoDB項目に変換»]) := by
    unfold «リポジトリを作成»
    rw [h1, hmk]
    simp only [hput]
  refine ⟨_, _, hcreate, rfl, ?_⟩
  intro provider2 name2 branch2 id2 now2
  have hfilter_s : s.filter (urlFilter url) = [] := by
    unfold «URLでリポジトリを検索» at h1
    rcases hs : «スキャン実行» s (urlFilter url) (some 1) with _ | ⟨it0, rest0⟩
    · unfold «スキャン実行» at hs
      rcases List.take_eq_nil_iff.mp hs with h' | h'
      · exact absurd h' (by norm_num)
      · exact h'
    · rcases hc : «リポジトリ».«DynamoDB項目から作成» it0 with _ | r' <;>
        (rw [hs] at h1; simp [hc] at h1)
  have hfilter_item : urlFilter url
      ((createdRepo id provider url nm branch now).«DynamoDB項目に変換») = true := by
    unfold urlFilter
    rw [show itemGet ((createdRepo id provider url nm branch now).«DynamoDB項目に変換»)
          "remote_url" = some (.s url) from rfl,
        show itemGet ((createdRepo id provider url nm branch now).«DynamoDB項目に変換»)
          "deleted" = some (.b false) from rfl]
    simp
  have hscan2 : «スキャン実行»
      (s ++ [(createdRepo id provider url nm branch now).«DynamoDB項目に変換»])
      (urlFilter url) (some 1)
      = [(createdRepo id provider url nm branch now).«DynamoDB項目に変換»] := by
    unfold «スキャン実行»
    rw [List.filter_append, hfilter_s]
    simp [hfilter_item]
  have hconv : «リポジトリ».«DynamoDB項目から作成»
      ((createdRepo id provider url nm branch now).«DynamoDB項目に変換»)
      = some (createdRepo id provider url nm branch now) :=
    repo_roundtrip (createdRepo id provider url nm branch now) h2
      (name_validator_fix name nm h3) rfl rfl
  have hsearch2 : «URLでリポジトリを検索»
      (s ++ [(createdRepo id provider url nm branch now).«DynamoDB項目に変換»]) url
      = .ok (some (createdRepo id provider url nm branch now)) := by
    unfold «URLでリポジトリを検索»
    rw [hscan2]
    simp only [hconv]
  unfold «リポジトリを作成»
  rw [hsearch2]

/-- Witness for C1 at the specification's registration scenario: registering
the GitHub URL on an empty store succeeds with READY, and a second
registration of the same URL fails with the duplicate error. -/
theorem C1_create_unique_witness :
    ∃ r s2, «リポジトリを作成» ([] : Store) .github "https://github.com/acme/widgets"
        "Widgets" "main" "repo-1" 0 = .ok (r, s2)
      ∧ r.«ステータス» = .READY
      ∧ «リポジトリを作成» s2 .github "https://github.com/acme/widgets" "Another"
          "dev" "repo-2" 3 = .error .«条件チェックエラー» := by
  obtain ⟨r, s2, hA, hB, hC⟩ := C1_create_unique [] .github
    "https://github.com/acme/widgets" "Widgets" "main" "repo-1" "Widgets" 0
    rfl (by decide) (by decide) rfl
  exact ⟨r, s2, hA, hB, hC .github "Another" "dev" "repo-2" 3⟩

end DeepWiki
